import Mathlib

/-!
# Voice Blog Creator — workflow orchestrator, verified model

Shallow embedding of `scripts/workflow.py` (class `WorkflowOrchestrator` and
`main`) together with the direct `--input --output` mode of the three stage
scripts it invokes (`preprocess_audio.py`, `gemini_transcribe.py`,
`gemini_blog_post.py`).

The filesystem is modelled by the existence bits of the six paths the
orchestrator ever consults: the input directory, `raw.mp3`, the output
directory, `processed.mp3`, `transcript.txt`, `blog_post.md`.  External
effects (the DSP library, the hosted language-model API) are modelled by an
environment of booleans saying whether each external call succeeds and
whether the API credential is present; a raised exception or a timeout in a
stage script makes that script exit non-zero, which the environment's
`false` case covers.
-/

/-- Existence bits of the paths of one Job (folder label fixed):
`input/audio-file/{n}/` and `raw.mp3` inside it, `output/{n}/` and the three
artifacts inside it. -/
structure FS where
  inputDir : Bool
  rawAudio : Bool
  outputDir : Bool
  processedAudio : Bool
  transcript : Bool
  blogPost : Bool
deriving DecidableEq, Repr, Fintype

/-- Outcomes of the external collaborators: `apiKey` is whether
`GEMINI_API_KEY` resolves (transcribe and blog stages need it), `opN` is
whether stage N's external operation (pydub/noisereduce processing, the two
Gemini calls) runs to completion without raising. -/
structure Env where
  apiKey : Bool
  op1 : Bool
  op2 : Bool
  op3 : Bool
deriving DecidableEq, Repr, Fintype

/-- `preprocess_audio.py`, direct `--input --output` mode: makes the output
file's parent directory, then loads `raw.mp3` (raises if absent), processes,
and exports `processed.mp3`; returns exit code 0 exactly when nothing
raised, and the export has then written the output file. -/
def preprocess_audio_main (opOk : Bool) (fs : FS) : Nat × FS :=
  let fs1 : FS := { fs with outputDir := true }
  if fs1.rawAudio && opOk then (0, { fs1 with processedAudio := true })
  else (1, fs1)

/-- `gemini_transcribe.py`, direct mode: constructing the transcriber raises
without an API key (exit 1); `transcribe_audio` stats and reads the input
audio (raises if absent), calls the model (may raise or time out), then
makes the output directory and writes `transcript.txt`; exit 0 exactly when
nothing raised, and the transcript file has then been written. -/
def gemini_transcribe_main (apiKey opOk : Bool) (fs : FS) : Nat × FS :=
  if !apiKey then (1, fs)
  else if fs.processedAudio && opOk then
    (0, { fs with outputDir := true, transcript := true })
  else (1, fs)

/-- `gemini_blog_post.py`, direct mode: constructing the generator raises
without an API key (exit 1); `generate_blog_post` reads the transcript
(raises if absent), calls the model, then makes the output directory and
writes `blog_post.md`; exit 0 exactly when nothing raised. -/
def gemini_blog_post_main (apiKey opOk : Bool) (fs : FS) : Nat × FS :=
  if !apiKey then (1, fs)
  else if fs.transcript && opOk then
    (0, { fs with outputDir := true, blogPost := true })
  else (1, fs)

/-- `WorkflowOrchestrator.run_command`: runs the subprocess and returns
`True` iff its return code is 0, handing back the filesystem the subprocess
left behind. -/
def run_command (result : Nat × FS) : Bool × FS :=
  (result.1 == 0, result.2)

/-- `WorkflowOrchestrator.check_file_exists`: `True` (skip the step) when
the file exists and `--force` is not set; `False` when the file exists but
`--force` is set, or when the file does not exist. -/
def check_file_exists (force : Bool) (fileExists : Bool) : Bool :=
  if fileExists then
    if force then false else true
  else false

/-- Per-stage outcome, read off the return paths of the three
`step_*` methods: `skipped` (returned `True` from the skip check),
`succeeded` (`run_command` returned `True`), `failedPredMissing` (returned
`False` because the required input artifact is absent), `failedOp`
(`run_command` returned `False`). -/
inductive StageOutcome where
  | skipped
  | succeeded
  | failedPredMissing
  | failedOp
deriving DecidableEq, Repr, Fintype

/-- The boolean a `step_*` method actually returns for each outcome. -/
def StageOutcome.toBool : StageOutcome → Bool
  | .skipped => true
  | .succeeded => true
  | .failedPredMissing => false
  | .failedOp => false

/-- Result of one `step_*` method: the outcome, whether `run_command` was
reached (an external operation invoked), and the filesystem afterwards. -/
structure StepResult where
  outcome : StageOutcome
  opInvoked : Bool
  fs : FS
deriving DecidableEq, Repr

/-- `WorkflowOrchestrator.step_1_preprocess_audio`: skip if
`processed.mp3` exists (honouring `--force`), else run
`preprocess_audio.py` on `raw.mp3`. -/
def step_1_preprocess_audio (force : Bool) (env : Env) (fs : FS) : StepResult :=
  if check_file_exists force fs.processedAudio then
    { outcome := .skipped, opInvoked := false, fs := fs }
  else
    let r := run_command (preprocess_audio_main env.op1 fs)
    if r.1 then { outcome := .succeeded, opInvoked := true, fs := r.2 }
    else { outcome := .failedOp, opInvoked := true, fs := r.2 }

/-- `WorkflowOrchestrator.step_2_transcribe`: fail if `processed.mp3` is
absent, else skip if `transcript.txt` exists (honouring `--force`), else
run `gemini_transcribe.py`. -/
def step_2_transcribe (force : Bool) (env : Env) (fs : FS) : StepResult :=
  if !fs.processedAudio then
    { outcome := .failedPredMissing, opInvoked := false, fs := fs }
  else if check_file_exists force fs.transcript then
    { outcome := .skipped, opInvoked := false, fs := fs }
  else
    let r := run_command (gemini_transcribe_main env.apiKey env.op2 fs)
    if r.1 then { outcome := .succeeded, opInvoked := true, fs := r.2 }
    else { outcome := .failedOp, opInvoked := true, fs := r.2 }

/-- `WorkflowOrchestrator.step_3_generate_blog`: fail if `transcript.txt`
is absent, else skip if `blog_post.md` exists (honouring `--force`), else
run `gemini_blog_post.py`. -/
def step_3_generate_blog (force : Bool) (env : Env) (fs : FS) : StepResult :=
  if !fs.transcript then
    { outcome := .failedPredMissing, opInvoked := false, fs := fs }
  else if check_file_exists force fs.blogPost then
    { outcome := .skipped, opInvoked := false, fs := fs }
  else
    let r := run_command (gemini_blog_post_main env.apiKey env.op3 fs)
    if r.1 then { outcome := .succeeded, opInvoked := true, fs := r.2 }
    else { outcome := .failedOp, opInvoked := true, fs := r.2 }

/-- Dispatch on the stage index (stages are 1, 2, 3; any other index is
never used by the orchestrator and is given a vacuous result). -/
def stageStep (k : Nat) (force : Bool) (env : Env) (fs : FS) : StepResult :=
  match k with
  | 1 => step_1_preprocess_audio force env fs
  | 2 => step_2_transcribe force env fs
  | 3 => step_3_generate_blog force env fs
  | _ => { outcome := .skipped, opInvoked := false, fs := fs }

/-- The exit code and resulting filesystem of the external command stage
`k` delegates to, as `run_command` would observe them. -/
def stageCommand (k : Nat) (env : Env) (fs : FS) : Nat × FS :=
  match k with
  | 1 => preprocess_audio_main env.op1 fs
  | 2 => gemini_transcribe_main env.apiKey env.op2 fs
  | 3 => gemini_blog_post_main env.apiKey env.op3 fs
  | _ => (1, fs)

/-- The artifact required to exist before stage `k` may run: `raw.mp3` for
stage 1, the previous stage's output for stages 2 and 3. -/
def stagePred (k : Nat) (fs : FS) : Bool :=
  match k with
  | 1 => fs.rawAudio
  | 2 => fs.processedAudio
  | 3 => fs.transcript
  | _ => false

/-- The output artifact stage `k` produces. -/
def stageOutput (k : Nat) (fs : FS) : Bool :=
  match k with
  | 1 => fs.processedAudio
  | 2 => fs.transcript
  | 3 => fs.blogPost
  | _ => false

/-- An element of the `steps` argument of `run_workflow`: the CLI passes
integers (argparse restricts them to 1, 2, 3), but the method also accepts
the token `'all'` in the list. -/
inductive StepArg where
  | all
  | num (n : Nat)
deriving DecidableEq, Repr

/-- The integer a `StepArg` contributes to membership tests
(`'all'` is not an integer, so `1 in steps` ignores it). -/
def StepArg.toNat : StepArg → Option Nat
  | .all => none
  | .num n => some n

/-- The first two lines of `run_workflow`: `steps = [1, 2, 3]` when `steps`
is `None` or contains `'all'`; otherwise the given list, viewed through the
integer membership tests the method performs on it. -/
def normalizeSteps : Option (List StepArg) → List Nat
  | none => [1, 2, 3]
  | some steps =>
      if steps.contains StepArg.all then [1, 2, 3]
      else steps.filterMap StepArg.toNat

/-- End-of-run "Generated files" report: which of the three output
artifacts exist at summary time. -/
def workflow_summary (fs : FS) : Bool × Bool × Bool :=
  (fs.processedAudio, fs.transcript, fs.blogPost)

/-- Instrumented result of `run_workflow`: the boolean the method returns,
the per-stage outcomes in execution order, the stages whose `step_*` method
was entered, the stages whose external operation (`run_command`) was
invoked, the summary (`none` when the run stopped on a failure before the
summary block), and the final filesystem. -/
structure RunResult where
  ok : Bool
  outcomes : List (Nat × StageOutcome)
  entered : List Nat
  invoked : List Nat
  manifest : Option (Bool × Bool × Bool)
  fs : FS
deriving DecidableEq, Repr

/-- The summary block at the end of `run_workflow`: reached only when no
requested stage failed; reports the artifacts that exist and returns
`True`. -/
def run_workflow_finish (outcomes : List (Nat × StageOutcome))
    (entered invoked : List Nat) (fs : FS) : RunResult :=
  { ok := true, outcomes := outcomes, entered := entered, invoked := invoked,
    manifest := some (workflow_summary fs), fs := fs }

/-- `if 3 in steps:` block of `run_workflow`, then the summary. -/
def run_workflow_from3 (force : Bool) (env : Env) (b3 : Bool)
    (outcomes : List (Nat × StageOutcome)) (entered invoked : List Nat)
    (fs : FS) : RunResult :=
  if b3 then
    let s := step_3_generate_blog force env fs
    let outcomes1 := outcomes ++ [(3, s.outcome)]
    let entered1 := entered ++ [3]
    let invoked1 := invoked ++ (if s.opInvoked then [3] else [])
    if s.outcome.toBool then run_workflow_finish outcomes1 entered1 invoked1 s.fs
    else
      { ok := false, outcomes := outcomes1, entered := entered1,
        invoked := invoked1, manifest := none, fs := s.fs }
  else run_workflow_finish outcomes entered invoked fs

/-- `if 2 in steps:` block of `run_workflow`, then the rest. -/
def run_workflow_from2 (force : Bool) (env : Env) (b2 b3 : Bool)
    (outcomes : List (Nat × StageOutcome)) (entered invoked : List Nat)
    (fs : FS) : RunResult :=
  if b2 then
    let s := step_2_transcribe force env fs
    let outcomes1 := outcomes ++ [(2, s.outcome)]
    let entered1 := entered ++ [2]
    let invoked1 := invoked ++ (if s.opInvoked then [2] else [])
    if s.outcome.toBool then
      run_workflow_from3 force env b3 outcomes1 entered1 invoked1 s.fs
    else
      { ok := false, outcomes := outcomes1, entered := entered1,
        invoked := invoked1, manifest := none, fs := s.fs }
  else run_workflow_from3 force env b3 outcomes entered invoked fs

/-- `run_workflow` body after `steps` is reduced to the three membership
tests `1 in steps`, `2 in steps`, `3 in steps` it performs. -/
def run_workflow_core (force : Bool) (env : Env) (b1 b2 b3 : Bool)
    (fs : FS) : RunResult :=
  if b1 then
    let s := step_1_preprocess_audio force env fs
    let outcomes1 := [(1, s.outcome)]
    let entered1 := [1]
    let invoked1 := if s.opInvoked then [1] else []
    if s.outcome.toBool then
      run_workflow_from2 force env b2 b3 outcomes1 entered1 invoked1 s.fs
    else
      { ok := false, outcomes := outcomes1, entered := entered1,
        invoked := invoked1, manifest := none, fs := s.fs }
  else run_workflow_from2 force env b2 b3 [] [] [] fs

/-- `WorkflowOrchestrator.run_workflow`: normalize `steps`, run each
requested stage in the fixed order 1, 2, 3, stop on the first failure,
then report the summary and return `True`. -/
def run_workflow (force : Bool) (env : Env) (steps : Option (List StepArg))
    (fs : FS) : RunResult :=
  let nums := normalizeSteps steps
  run_workflow_core force env (nums.contains 1) (nums.contains 2)
    (nums.contains 3) fs

/-- Result of `main`: the process exit code, the instrumented workflow run
(`none` when orchestrator construction failed before any stage), and the
final filesystem. -/
structure MainResult where
  exitCode : Nat
  run : Option RunResult
  fs : FS
deriving DecidableEq, Repr

/-- `main` together with `WorkflowOrchestrator.__init__`: construction
validates that the input directory and `raw.mp3` exist (a `ValueError` is
caught in `main` and turns into exit code 1, before the output directory is
created and before any stage); on success it creates the output directory,
runs the workflow, and exits 0 iff `run_workflow` returned `True`. -/
def workflow_main (force : Bool) (env : Env) (steps : Option (List StepArg))
    (fs : FS) : MainResult :=
  if !fs.inputDir then { exitCode := 1, run := none, fs := fs }
  else if !fs.rawAudio then { exitCode := 1, run := none, fs := fs }
  else
    let fs1 : FS := { fs with outputDir := true }
    let r := run_workflow force env steps fs1
    { exitCode := if r.ok then 0 else 1, run := some r, fs := r.fs }

set_option maxHeartbeats 1000000
set_option synthInstance.maxSize 2000
set_option synthInstance.maxHeartbeats 1000000

/-- Step 1 never touches the input directory bit. -/
theorem step_1_fs_inputDir (force : Bool) (env : Env) (fs : FS) :
    (step_1_preprocess_audio force env fs).fs.inputDir = fs.inputDir := by
  obtain ⟨i, r, o, p, t, b⟩ := fs
  obtain ⟨ak, o1, o2, o3⟩ := env
  cases force <;> cases r <;> cases p <;> cases o1 <;> rfl

/-- Step 1 never touches `raw.mp3`. -/
theorem step_1_fs_rawAudio (force : Bool) (env : Env) (fs : FS) :
    (step_1_preprocess_audio force env fs).fs.rawAudio = fs.rawAudio := by
  obtain ⟨i, r, o, p, t, b⟩ := fs
  obtain ⟨ak, o1, o2, o3⟩ := env
  cases force <;> cases r <;> cases p <;> cases o1 <;> rfl

/-- Step 1 never touches `transcript.txt`. -/
theorem step_1_fs_transcript (force : Bool) (env : Env) (fs : FS) :
    (step_1_preprocess_audio force env fs).fs.transcript = fs.transcript := by
  obtain ⟨i, r, o, p, t, b⟩ := fs
  obtain ⟨ak, o1, o2, o3⟩ := env
  cases force <;> cases r <;> cases p <;> cases o1 <;> rfl

/-- Step 1 never touches `blog_post.md`. -/
theorem step_1_fs_blogPost (force : Bool) (env : Env) (fs : FS) :
    (step_1_preprocess_audio force env fs).fs.blogPost = fs.blogPost := by
  obtain ⟨i, r, o, p, t, b⟩ := fs
  obtain ⟨ak, o1, o2, o3⟩ := env
  cases force <;> cases r <;> cases p <;> cases o1 <;> rfl

/-- Step 1 never deletes the output directory. -/
theorem step_1_fs_outputDir (force : Bool) (env : Env) (fs : FS)
    (h : fs.outputDir = true) :
    (step_1_preprocess_audio force env fs).fs.outputDir = true := by
  obtain ⟨i, r, o, p, t, b⟩ := fs
  obtain ⟨ak, o1, o2, o3⟩ := env
  subst h
  cases force <;> cases r <;> cases p <;> cases o1 <;> rfl

/-- Step 1 never deletes `processed.mp3`. -/
theorem step_1_fs_processed_mono (force : Bool) (env : Env) (fs : FS)
    (h : fs.processedAudio = true) :
    (step_1_preprocess_audio force env fs).fs.processedAudio = true := by
  obtain ⟨i, r, o, p, t, b⟩ := fs
  obtain ⟨ak, o1, o2, o3⟩ := env
  subst h
  cases force <;> cases r <;> cases o1 <;> rfl

/-- If step 1 reports success (skip or run), `processed.mp3` exists
afterwards: the skip check saw it, or `preprocess_audio.py` exited 0
after exporting it. -/
theorem step_1_ok_processed (force : Bool) (env : Env) (fs : FS)
    (h : (step_1_preprocess_audio force env fs).outcome.toBool = true) :
    (step_1_preprocess_audio force env fs).fs.processedAudio = true := by
  obtain ⟨i, r, o, p, t, b⟩ := fs
  obtain ⟨ak, o1, o2, o3⟩ := env
  revert h
  cases force <;> cases r <;> cases p <;> cases o1 <;>
    simp [step_1_preprocess_audio, check_file_exists, run_command,
      preprocess_audio_main, StageOutcome.toBool]

/-- With `--force` off and `processed.mp3` present, step 1 returns
immediately: `Skipped`, no external call, filesystem untouched. -/
theorem step_1_skip (env : Env) (fs : FS) (h : fs.processedAudio = true) :
    step_1_preprocess_audio false env fs =
      { outcome := .skipped, opInvoked := false, fs := fs } := by
  obtain ⟨i, r, o, p, t, b⟩ := fs
  subst h
  rfl

/-- Step 2 never touches the input directory bit. -/
theorem step_2_fs_inputDir (force : Bool) (env : Env) (fs : FS) :
    (step_2_transcribe force env fs).fs.inputDir = fs.inputDir := by
  obtain ⟨i, r, o, p, t, b⟩ := fs
  obtain ⟨ak, o1, o2, o3⟩ := env
  cases force <;> cases p <;> cases t <;> cases ak <;> cases o2 <;> rfl

/-- Step 2 never touches `raw.mp3`. -/
theorem step_2_fs_rawAudio (force : Bool) (env : Env) (fs : FS) :
    (step_2_transcribe force env fs).fs.rawAudio = fs.rawAudio := by
  obtain ⟨i, r, o, p, t, b⟩ := fs
  obtain ⟨ak, o1, o2, o3⟩ := env
  cases force <;> cases p <;> cases t <;> cases ak <;> cases o2 <;> rfl

/-- Step 2 never touches `processed.mp3`. -/
theorem step_2_fs_processed (force : Bool) (env : Env) (fs : FS) :
    (step_2_transcribe force env fs).fs.processedAudio = fs.processedAudio := by
  obtain ⟨i, r, o, p, t, b⟩ := fs
  obtain ⟨ak, o1, o2, o3⟩ := env
  cases force <;> cases p <;> cases t <;> cases ak <;> cases o2 <;> rfl

/-- Step 2 never touches `blog_post.md`. -/
theorem step_2_fs_blogPost (force : Bool) (env : Env) (fs : FS) :
    (step_2_transcribe force env fs).fs.blogPost = fs.blogPost := by
  obtain ⟨i, r, o, p, t, b⟩ := fs
  obtain ⟨ak, o1, o2, o3⟩ := env
  cases force <;> cases p <;> cases t <;> cases ak <;> cases o2 <;> rfl

/-- Step 2 never deletes the output directory. -/
theorem step_2_fs_outputDir (force : Bool) (env : Env) (fs : FS)
    (h : fs.outputDir = true) :
    (step_2_transcribe force env fs).fs.outputDir = true := by
  obtain ⟨i, r, o, p, t, b⟩ := fs
  obtain ⟨ak, o1, o2, o3⟩ := env
  subst h
  cases force <;> cases p <;> cases t <;> cases ak <;> cases o2 <;> rfl

/-- Step 2 never deletes `transcript.txt`. -/
theorem step_2_fs_transcript_mono (force : Bool) (env : Env) (fs : FS)
    (h : fs.transcript = true) :
    (step_2_transcribe force env fs).fs.transcript = true := by
  obtain ⟨i, r, o, p, t, b⟩ := fs
  obtain ⟨ak, o1, o2, o3⟩ := env
  subst h
  cases force <;> cases p <;> cases ak <;> cases o2 <;> rfl

/-- If step 2 reports success, both `processed.mp3` (its required
predecessor, checked on entry) and `transcript.txt` (its output) exist
afterwards. -/
theorem step_2_ok_post (force : Bool) (env : Env) (fs : FS)
    (h : (step_2_transcribe force env fs).outcome.toBool = true) :
    (step_2_transcribe force env fs).fs.processedAudio = true ∧
    (step_2_transcribe force env fs).fs.transcript = true := by
  obtain ⟨i, r, o, p, t, b⟩ := fs
  obtain ⟨ak, o1, o2, o3⟩ := env
  revert h
  cases force <;> cases p <;> cases t <;> cases ak <;> cases o2 <;>
    simp [step_2_transcribe, check_file_exists, run_command,
      gemini_transcribe_main, StageOutcome.toBool]

/-- With `--force` off, `processed.mp3` present and `transcript.txt`
present, step 2 returns immediately: `Skipped`, no external call,
filesystem untouched. -/
theorem step_2_skip (env : Env) (fs : FS) (hp : fs.processedAudio = true)
    (ht : fs.transcript = true) :
    step_2_transcribe false env fs =
      { outcome := .skipped, opInvoked := false, fs := fs } := by
  obtain ⟨i, r, o, p, t, b⟩ := fs
  subst hp
  subst ht
  rfl

/-- Step 3 never touches the input directory bit. -/
theorem step_3_fs_inputDir (force : Bool) (env : Env) (fs : FS) :
    (step_3_generate_blog force env fs).fs.inputDir = fs.inputDir := by
  obtain ⟨i, r, o, p, t, b⟩ := fs
  obtain ⟨ak, o1, o2, o3⟩ := env
  cases force <;> cases t <;> cases b <;> cases ak <;> cases o3 <;> rfl

/-- Step 3 never touches `raw.mp3`. -/
theorem step_3_fs_rawAudio (force : Bool) (env : Env) (fs : FS) :
    (step_3_generate_blog force env fs).fs.rawAudio = fs.rawAudio := by
  obtain ⟨i, r, o, p, t, b⟩ := fs
  obtain ⟨ak, o1, o2, o3⟩ := env
  cases force <;> cases t <;> cases b <;> cases ak <;> cases o3 <;> rfl

/-- Step 3 never touches `processed.mp3`. -/
theorem step_3_fs_processed (force : Bool) (env : Env) (fs : FS) :
    (step_3_generate_blog force env fs).fs.processedAudio = fs.processedAudio := by
  obtain ⟨i, r, o, p, t, b⟩ := fs
  obtain ⟨ak, o1, o2, o3⟩ := env
  cases force <;> cases t <;> cases b <;> cases ak <;> cases o3 <;> rfl

/-- Step 3 never touches `transcript.txt`. -/
theorem step_3_fs_transcript (force : Bool) (env : Env) (fs : FS) :
    (step_3_generate_blog force env fs).fs.transcript = fs.transcript := by
  obtain ⟨i, r, o, p, t, b⟩ := fs
  obtain ⟨ak, o1, o2, o3⟩ := env
  cases force <;> cases t <;> cases b <;> cases ak <;> cases o3 <;> rfl

/-- Step 3 never deletes the output directory. -/
theorem step_3_fs_outputDir (force : Bool) (env : Env) (fs : FS)
    (h : fs.outputDir = true) :
    (step_3_generate_blog force env fs).fs.outputDir = true := by
  obtain ⟨i, r, o, p, t, b⟩ := fs
  obtain ⟨ak, o1, o2, o3⟩ := env
  subst h
  cases force <;> cases t <;> cases b <;> cases ak <;> cases o3 <;> rfl

/-- Step 3 never deletes `blog_post.md`. -/
theorem step_3_fs_blogPost_mono (force : Bool) (env : Env) (fs : FS)
    (h : fs.blogPost = true) :
    (step_3_generate_blog force env fs).fs.blogPost = true := by
  obtain ⟨i, r, o, p, t, b⟩ := fs
  obtain ⟨ak, o1, o2, o3⟩ := env
  subst h
  cases force <;> cases t <;> cases ak <;> cases o3 <;> rfl

/-- If step 3 reports success, both `transcript.txt` (its required
predecessor, checked on entry) and `blog_post.md` (its output) exist
afterwards. -/
theorem step_3_ok_post (force : Bool) (env : Env) (fs : FS)
    (h : (step_3_generate_blog force env fs).outcome.toBool = true) :
    (step_3_generate_blog force env fs).fs.transcript = true ∧
    (step_3_generate_blog force env fs).fs.blogPost = true := by
  obtain ⟨i, r, o, p, t, b⟩ := fs
  obtain ⟨ak, o1, o2, o3⟩ := env
  revert h
  cases force <;> cases t <;> cases b <;> cases ak <;> cases o3 <;>
    simp [step_3_generate_blog, check_file_exists, run_command,
      gemini_blog_post_main, StageOutcome.toBool]

/-- With `--force` off, `transcript.txt` present and `blog_post.md`
present, step 3 returns immediately: `Skipped`, no external call,
filesystem untouched. -/
theorem step_3_skip (env : Env) (fs : FS) (ht : fs.transcript = true)
    (hb : fs.blogPost = true) :
    step_3_generate_blog false env fs =
      { outcome := .skipped, opInvoked := false, fs := fs } := by
  obtain ⟨i, r, o, p, t, b⟩ := fs
  subst ht
  subst hb
  rfl

/-- Membership in an if-then-else of lists implies membership in one arm. -/
theorem mem_ite_subset {c : Prop} [Decidable c] {l1 l2 : List Nat} {j : Nat}
    (h : j ∈ if c then l1 else l2) : j ∈ l1 ∨ j ∈ l2 := by
  split at h
  · exact Or.inl h
  · exact Or.inr h

/-- What any workflow action preserves: the input side is untouched and
existing output-side files are never deleted. -/
def FS.mono (fs fs' : FS) : Prop :=
  (fs'.inputDir = fs.inputDir) ∧ (fs'.rawAudio = fs.rawAudio) ∧
  (fs.outputDir = true → fs'.outputDir = true) ∧
  (fs.processedAudio = true → fs'.processedAudio = true) ∧
  (fs.transcript = true → fs'.transcript = true) ∧
  (fs.blogPost = true → fs'.blogPost = true)

theorem FS.mono_refl (fs : FS) : FS.mono fs fs := by
  simp [FS.mono]

theorem FS.mono_trans {fs1 fs2 fs3 : FS} (h1 : FS.mono fs1 fs2)
    (h2 : FS.mono fs2 fs3) : FS.mono fs1 fs3 := by
  obtain ⟨a1, b1, c1, d1, e1, f1⟩ := h1
  obtain ⟨a2, b2, c2, d2, e2, f2⟩ := h2
  refine ⟨?_, ?_, ?_, ?_, ?_, ?_⟩ <;> simp_all

/-- Step 1 never touches the input side and never deletes an artifact. -/
theorem step_1_mono (force : Bool) (env : Env) (fs : FS) :
    FS.mono fs (step_1_preprocess_audio force env fs).fs := by
  obtain ⟨i, r, o, p, t, b⟩ := fs
  obtain ⟨ak, o1, o2, o3⟩ := env
  cases force <;> cases r <;> cases p <;> cases o1 <;> simp [FS.mono,
    step_1_preprocess_audio, check_file_exists, run_command,
    preprocess_audio_main]

/-- Step 2 never touches the input side and never deletes an artifact. -/
theorem step_2_mono (force : Bool) (env : Env) (fs : FS) :
    FS.mono fs (step_2_transcribe force env fs).fs := by
  obtain ⟨i, r, o, p, t, b⟩ := fs
  obtain ⟨ak, o1, o2, o3⟩ := env
  cases force <;> cases p <;> cases t <;> cases ak <;> cases o2 <;>
    simp [FS.mono, step_2_transcribe, check_file_exists, run_command,
      gemini_transcribe_main]

/-- Step 3 never touches the input side and never deletes an artifact. -/
theorem step_3_mono (force : Bool) (env : Env) (fs : FS) :
    FS.mono fs (step_3_generate_blog force env fs).fs := by
  obtain ⟨i, r, o, p, t, b⟩ := fs
  obtain ⟨ak, o1, o2, o3⟩ := env
  cases force <;> cases t <;> cases b <;> cases ak <;> cases o3 <;>
    simp [FS.mono, step_3_generate_blog, check_file_exists, run_command,
      gemini_blog_post_main]

/-- A workflow run never touches the input side and never deletes an
artifact: `inputDir` and `rawAudio` are read-only, and each of the four
output-side existence bits only ever goes from absent to present. -/
theorem run_core_mono (force : Bool) (env : Env) (b1 b2 b3 : Bool) (fs : FS) :
    FS.mono fs (run_workflow_core force env b1 b2 b3 fs).fs := by
  simp only [run_workflow_core, run_workflow_from2, run_workflow_from3,
    run_workflow_finish]
  split_ifs <;>
    first
      | exact FS.mono_refl _
      | exact step_1_mono _ _ _
      | exact step_2_mono _ _ _
      | exact step_3_mono _ _ _
      | exact FS.mono_trans (step_1_mono _ _ _) (step_2_mono _ _ _)
      | exact FS.mono_trans (step_1_mono _ _ _) (step_3_mono _ _ _)
      | exact FS.mono_trans (step_2_mono _ _ _) (step_3_mono _ _ _)
      | exact FS.mono_trans (FS.mono_trans (step_1_mono _ _ _)
          (step_2_mono _ _ _)) (step_3_mono _ _ _)

/-- A run that returns `True` entered exactly the requested stages, in the
fixed order 1, 2, 3. -/
theorem run_core_entered_of_ok :
    ∀ (force : Bool) (env : Env) (b1 b2 b3 : Bool) (fs : FS),
      (run_workflow_core force env b1 b2 b3 fs).ok = true →
      (run_workflow_core force env b1 b2 b3 fs).entered =
        (if b1 then [1] else []) ++ (if b2 then [2] else []) ++
          (if b3 then [3] else []) := by
  intro force env b1 b2 b3 fs
  simp only [run_workflow_core, run_workflow_from2, run_workflow_from3,
    run_workflow_finish]
  split_ifs <;> simp_all

/-- Every stage a run enters is one of 1, 2, 3 and was requested. -/
theorem run_core_entered_requested :
    ∀ (force : Bool) (env : Env) (b1 b2 b3 : Bool) (fs : FS),
      ∀ j ∈ (run_workflow_core force env b1 b2 b3 fs).entered,
        (j = 1 ∧ b1 = true) ∨ (j = 2 ∧ b2 = true) ∨ (j = 3 ∧ b3 = true) := by
  intro force env b1 b2 b3 fs
  simp only [run_workflow_core, run_workflow_from2, run_workflow_from3,
    run_workflow_finish]
  split_ifs <;> simp_all

/-- The stages a run enters are strictly increasing (so each is entered at
most once). -/
theorem run_core_entered_sorted :
    ∀ (force : Bool) (env : Env) (b1 b2 b3 : Bool) (fs : FS),
      ((run_workflow_core force env b1 b2 b3 fs).entered).Pairwise (· < ·) := by
  intro force env b1 b2 b3 fs
  simp only [run_workflow_core, run_workflow_from2, run_workflow_from3,
    run_workflow_finish]
  split_ifs <;> simp_all

/-- A run that returns `True` emits the summary, and the summary reports
the existence of the three output artifacts in the final filesystem. -/
theorem run_core_manifest_of_ok :
    ∀ (force : Bool) (env : Env) (b1 b2 b3 : Bool) (fs : FS),
      (run_workflow_core force env b1 b2 b3 fs).ok = true →
      (run_workflow_core force env b1 b2 b3 fs).manifest =
        some (workflow_summary (run_workflow_core force env b1 b2 b3 fs).fs) := by
  intro force env b1 b2 b3 fs
  simp only [run_workflow_core, run_workflow_from2, run_workflow_from3,
    run_workflow_finish]
  split_ifs <;> simp_all

/-- After a run that returns `True`, every requested stage's output
artifact exists, and so does its predecessor artifact on the output side:
stage 1 leaves `processed.mp3`, stage 2 additionally needs and leaves
`processed.mp3` and leaves `transcript.txt`, stage 3 likewise. -/
theorem run_core_posts_of_ok :
    ∀ (force : Bool) (env : Env) (b1 b2 b3 : Bool) (fs : FS),
      (run_workflow_core force env b1 b2 b3 fs).ok = true →
      (b1 → (run_workflow_core force env b1 b2 b3 fs).fs.processedAudio = true) ∧
      (b2 → (run_workflow_core force env b1 b2 b3 fs).fs.processedAudio = true ∧
            (run_workflow_core force env b1 b2 b3 fs).fs.transcript = true) ∧
      (b3 → (run_workflow_core force env b1 b2 b3 fs).fs.transcript = true ∧
            (run_workflow_core force env b1 b2 b3 fs).fs.blogPost = true) := by
  intro force env b1 b2 b3 fs
  simp only [run_workflow_core, run_workflow_from2, run_workflow_from3,
    run_workflow_finish]
  split_ifs <;>
    simp_all [step_1_ok_processed, step_2_ok_post, step_3_ok_post,
      step_1_fs_transcript, step_1_fs_blogPost, step_2_fs_processed,
      step_2_fs_blogPost, step_3_fs_processed, step_3_fs_transcript,
      step_1_fs_processed_mono, step_2_fs_transcript_mono]

/-- When every requested stage's output and output-side predecessor already
exist and `--force` is off, a run skips every requested stage, invokes no
external operation, and leaves the filesystem untouched. -/
theorem run_core_all_skip :
    ∀ (env : Env) (b1 b2 b3 : Bool) (fs : FS),
      (b1 → fs.processedAudio = true) →
      (b2 → fs.processedAudio = true ∧ fs.transcript = true) →
      (b3 → fs.transcript = true ∧ fs.blogPost = true) →
      (run_workflow_core false env b1 b2 b3 fs).ok = true ∧
      (run_workflow_core false env b1 b2 b3 fs).invoked = [] ∧
      (run_workflow_core false env b1 b2 b3 fs).fs = fs ∧
      (run_workflow_core false env b1 b2 b3 fs).outcomes =
        ((if b1 then [1] else []) ++ (if b2 then [2] else []) ++
          (if b3 then [3] else [])).map (fun k => (k, StageOutcome.skipped)) := by
  intro env b1 b2 b3 fs h1 h2 h3
  cases b1 <;> cases b2 <;> cases b3 <;>
    simp_all [run_workflow_core, run_workflow_from2, run_workflow_from3,
      run_workflow_finish, step_1_skip, step_2_skip, step_3_skip,
      StageOutcome.toBool]

/-- Fail-fast, stage-3 layer: entering the `if 3 in steps` block with only
succeeding outcomes accumulated, any failing outcome in the result is stage
3's own, the run returns `False`, and every stage entered and operation
invoked has index at most the failing stage's. -/
theorem run_workflow_from3_failstop (force : Bool) (env : Env) (b3 : Bool)
    (oc : List (Nat × StageOutcome)) (en inv : List Nat) (fs : FS)
    (hoc : ∀ q ∈ oc, q.2.toBool = true)
    (hen : ∀ j ∈ en, j ≤ 3) (hinv : ∀ j ∈ inv, j ≤ 3) :
    ∀ p ∈ (run_workflow_from3 force env b3 oc en inv fs).outcomes,
      p.2.toBool = false →
      (run_workflow_from3 force env b3 oc en inv fs).ok = false ∧
      (∀ j ∈ (run_workflow_from3 force env b3 oc en inv fs).entered, j ≤ p.1) ∧
      (∀ j ∈ (run_workflow_from3 force env b3 oc en inv fs).invoked, j ≤ p.1) := by
  intro p
  simp only [run_workflow_from3]
  split
  · split
    · -- stage 3 succeeded
      intro hp hfail
      simp only [run_workflow_finish, List.mem_append, List.mem_singleton] at hp
      rcases hp with hp | hp
      · exact absurd (hoc p hp) (by simp [hfail])
      · subst hp
        simp_all [StageOutcome.toBool]
    · -- stage 3 failed
      intro hp hfail
      simp only [List.mem_append, List.mem_singleton] at hp
      rcases hp with hp | hp
      · exact absurd (hoc p hp) (by simp [hfail])
      · subst hp
        refine ⟨rfl, ?_, ?_⟩
        · intro j hj
          rcases List.mem_append.mp hj with hj | hj
          · exact le_trans (hen j hj) (by norm_num)
          · simp only [List.mem_singleton] at hj
            omega
        · intro j hj
          rcases List.mem_append.mp hj with hj | hj
          · exact le_trans (hinv j hj) (by norm_num)
          · rcases mem_ite_subset hj with hj | hj <;>
              simp only [List.mem_singleton, List.not_mem_nil] at hj
            omega
  · -- stage 3 not requested
    intro hp hfail
    exact absurd (hoc p hp) (by simp [hfail])

/-- Fail-fast, stage-2 layer. -/
theorem run_workflow_from2_failstop (force : Bool) (env : Env) (b2 b3 : Bool)
    (oc : List (Nat × StageOutcome)) (en inv : List Nat) (fs : FS)
    (hoc : ∀ q ∈ oc, q.2.toBool = true)
    (hen : ∀ j ∈ en, j ≤ 1) (hinv : ∀ j ∈ inv, j ≤ 1) :
    ∀ p ∈ (run_workflow_from2 force env b2 b3 oc en inv fs).outcomes,
      p.2.toBool = false →
      (run_workflow_from2 force env b2 b3 oc en inv fs).ok = false ∧
      (∀ j ∈ (run_workflow_from2 force env b2 b3 oc en inv fs).entered, j ≤ p.1) ∧
      (∀ j ∈ (run_workflow_from2 force env b2 b3 oc en inv fs).invoked, j ≤ p.1) := by
  intro p
  simp only [run_workflow_from2]
  split
  · split
    · -- stage 2 succeeded: defer to the stage-3 layer
      refine run_workflow_from3_failstop force env b3 _ _ _ _ ?_ ?_ ?_ p
      · intro q hq
        rcases List.mem_append.mp hq with hq | hq
        · exact hoc q hq
        · simp only [List.mem_singleton] at hq
          subst hq
          simp_all
      · intro j hj
        rcases List.mem_append.mp hj with hj | hj
        · exact le_trans (hen j hj) (by norm_num)
        · simp only [List.mem_singleton] at hj
          omega
      · intro j hj
        rcases List.mem_append.mp hj with hj | hj
        · exact le_trans (hinv j hj) (by norm_num)
        · rcases mem_ite_subset hj with hj | hj <;>
            simp only [List.mem_singleton, List.not_mem_nil] at hj
          omega
    · -- stage 2 failed
      intro hp hfail
      simp only [List.mem_append, List.mem_singleton] at hp
      rcases hp with hp | hp
      · exact absurd (hoc p hp) (by simp [hfail])
      · subst hp
        refine ⟨rfl, ?_, ?_⟩
        · intro j hj
          rcases List.mem_append.mp hj with hj | hj
          · exact le_trans (hen j hj) (by norm_num)
          · simp only [List.mem_singleton] at hj
            omega
        · intro j hj
          rcases List.mem_append.mp hj with hj | hj
          · exact le_trans (hinv j hj) (by norm_num)
          · rcases mem_ite_subset hj with hj | hj <;>
              simp only [List.mem_singleton, List.not_mem_nil] at hj
            omega
  · -- stage 2 not requested: defer to the stage-3 layer
    refine run_workflow_from3_failstop force env b3 _ _ _ _ hoc ?_ ?_ p
    · intro j hj
      exact le_trans (hen j hj) (by norm_num)
    · intro j hj
      exact le_trans (hinv j hj) (by norm_num)

/-- Fail-fast at the core level: a stage recorded with a failing outcome
makes the run return `False`, and no stage — and in particular no external
operation — with a larger index is reached. -/
theorem run_core_failstop (force : Bool) (env : Env) (b1 b2 b3 : Bool)
    (fs : FS) :
    ∀ p ∈ (run_workflow_core force env b1 b2 b3 fs).outcomes,
      p.2.toBool = false →
      (run_workflow_core force env b1 b2 b3 fs).ok = false ∧
      (∀ j ∈ (run_workflow_core force env b1 b2 b3 fs).entered, j ≤ p.1) ∧
      (∀ j ∈ (run_workflow_core force env b1 b2 b3 fs).invoked, j ≤ p.1) := by
  intro p
  simp only [run_workflow_core]
  split
  · split
    · -- stage 1 succeeded: defer to the stage-2 layer
      refine run_workflow_from2_failstop force env b2 b3 _ _ _ _ ?_ ?_ ?_ p
      · intro q hq
        simp only [List.mem_singleton] at hq
        subst hq
        simp_all
      · intro j hj
        simp only [List.mem_singleton] at hj
        omega
      · intro j hj
        rcases mem_ite_subset hj with hj | hj <;>
          simp only [List.mem_singleton, List.not_mem_nil] at hj
        omega
    · -- stage 1 failed
      intro hp hfail
      simp only [List.mem_singleton] at hp
      subst hp
      refine ⟨rfl, ?_, ?_⟩
      · intro j hj
        simp only [List.mem_singleton] at hj
        omega
      · intro j hj
        rcases mem_ite_subset hj with hj | hj <;>
          simp only [List.mem_singleton, List.not_mem_nil] at hj
        omega
  · -- stage 1 not requested: defer to the stage-2 layer
    refine run_workflow_from2_failstop force env b2 b3 _ _ _ _ ?_ ?_ ?_ p <;>
      intro q hq <;> simp at hq

/-- `run_workflow` is `run_workflow_core` at the three membership tests of
the normalized steps list; this restates monotonicity there. -/
theorem run_workflow_mono (force : Bool) (env : Env)
    (steps : Option (List StepArg)) (fs : FS) :
    FS.mono fs (run_workflow force env steps fs).fs :=
  run_core_mono force env ((normalizeSteps steps).contains 1)
    ((normalizeSteps steps).contains 2) ((normalizeSteps steps).contains 3) fs

/-- Restatement of `run_core_posts_of_ok` for `run_workflow`. -/
theorem run_workflow_posts_of_ok (force : Bool) (env : Env)
    (steps : Option (List StepArg)) (fs : FS)
    (h : (run_workflow force env steps fs).ok = true) :
    ((normalizeSteps steps).contains 1 →
      (run_workflow force env steps fs).fs.processedAudio = true) ∧
    ((normalizeSteps steps).contains 2 →
      (run_workflow force env steps fs).fs.processedAudio = true ∧
      (run_workflow force env steps fs).fs.transcript = true) ∧
    ((normalizeSteps steps).contains 3 →
      (run_workflow force env steps fs).fs.transcript = true ∧
      (run_workflow force env steps fs).fs.blogPost = true) :=
  run_core_posts_of_ok force env ((normalizeSteps steps).contains 1)
    ((normalizeSteps steps).contains 2) ((normalizeSteps steps).contains 3) fs h

/-- Restatement of `run_core_all_skip` for `run_workflow`. -/
theorem run_workflow_all_skip (env : Env) (steps : Option (List StepArg))
    (fs : FS)
    (h1 : (normalizeSteps steps).contains 1 → fs.processedAudio = true)
    (h2 : (normalizeSteps steps).contains 2 →
      fs.processedAudio = true ∧ fs.transcript = true)
    (h3 : (normalizeSteps steps).contains 3 →
      fs.transcript = true ∧ fs.blogPost = true) :
    (run_workflow false env steps fs).ok = true ∧
    (run_workflow false env steps fs).invoked = [] ∧
    (run_workflow false env steps fs).fs = fs ∧
    (run_workflow false env steps fs).outcomes =
      ((if (normalizeSteps steps).contains 1 then [1] else []) ++
        (if (normalizeSteps steps).contains 2 then [2] else []) ++
        (if (normalizeSteps steps).contains 3 then [3] else [])).map
          (fun k => (k, StageOutcome.skipped)) :=
  run_core_all_skip env ((normalizeSteps steps).contains 1)
    ((normalizeSteps steps).contains 2) ((normalizeSteps steps).contains 3)
    fs h1 h2 h3

/-- Restatement of `run_core_entered_of_ok` for `run_workflow`. -/
theorem run_workflow_entered_of_ok (force : Bool) (env : Env)
    (steps : Option (List StepArg)) (fs : FS)
    (h : (run_workflow force env steps fs).ok = true) :
    (run_workflow force env steps fs).entered =
      (if (normalizeSteps steps).contains 1 then [1] else []) ++
      (if (normalizeSteps steps).contains 2 then [2] else []) ++
      (if (normalizeSteps steps).contains 3 then [3] else []) :=
  run_core_entered_of_ok force env ((normalizeSteps steps).contains 1)
    ((normalizeSteps steps).contains 2) ((normalizeSteps steps).contains 3) fs h

/-- Restatement of `run_core_manifest_of_ok` for `run_workflow`. -/
theorem run_workflow_manifest_of_ok (force : Bool) (env : Env)
    (steps : Option (List StepArg)) (fs : FS)
    (h : (run_workflow force env steps fs).ok = true) :
    (run_workflow force env steps fs).manifest =
      some (workflow_summary (run_workflow force env steps fs).fs) :=
  run_core_manifest_of_ok force env ((normalizeSteps steps).contains 1)
    ((normalizeSteps steps).contains 2) ((normalizeSteps steps).contains 3) fs h

/-- Claim C5 (confirmed): the Completion Checker `check_file_exists`
returns true iff the output path exists and the overwrite (`--force`) flag
is false; in particular it returns false when the path does not exist, and
false when the path exists but overwrite is set, so an existing output is
then regenerated rather than skipped. -/
theorem claim_C5 :
    ∀ (force fileExists : Bool),
      check_file_exists force fileExists = (fileExists && !force) := by
  decide

/-- Claim C7 (confirmed): if the Job's input directory or its raw audio
file does not exist at construction time, the run fails before any stage:
exit code 1, no workflow run at all (`run = none`, so zero stages and zero
operations), and the filesystem — in particular the output directory bit —
is left exactly as it was: the output directory is only created after both
validations pass. -/
theorem claim_C7 (force : Bool) (env : Env) (steps : Option (List StepArg))
    (fs : FS) (h : fs.inputDir = false ∨ fs.rawAudio = false) :
    workflow_main force env steps fs =
      { exitCode := 1, run := none, fs := fs } := by
  rcases h with h | h
  · simp [workflow_main, h]
  · cases hin : fs.inputDir <;> simp [workflow_main, h, hin]

/-- Witness for C7: folder with no input directory at all. -/
theorem claim_C7_witness :
    workflow_main false { apiKey := true, op1 := true, op2 := true, op3 := true }
      none
      { inputDir := false, rawAudio := false, outputDir := false,
        processedAudio := false, transcript := false, blogPost := false } =
      { exitCode := 1, run := none,
        fs := { inputDir := false, rawAudio := false, outputDir := false,
                processedAudio := false, transcript := false, blogPost := false } } :=
  claim_C7 false _ none _ (Or.inl rfl)

/-- Claim C6 (confirmed): requesting stage 3 alone while the transcript
(stage 2's output) is absent fails with the predecessor-missing outcome,
invokes no external operation, and enters neither stage 1 nor stage 2; the
process exits 1. -/
theorem claim_C6 (force : Bool) (env : Env) (fs : FS)
    (hin : fs.inputDir = true) (hraw : fs.rawAudio = true)
    (ht : fs.transcript = false) :
    (workflow_main force env (some [StepArg.num 3]) fs).exitCode = 1 ∧
    (workflow_main force env (some [StepArg.num 3]) fs).run =
      some { ok := false,
             outcomes := [(3, StageOutcome.failedPredMissing)],
             entered := [3], invoked := [], manifest := none,
             fs := { fs with outputDir := true } } := by
  obtain ⟨i, r, o, p, t, b⟩ := fs
  subst hin
  subst hraw
  subst ht
  exact ⟨rfl, rfl⟩

/-- Witness for C6: empty output directory, stage 3 alone. -/
theorem claim_C6_witness :
    (workflow_main false { apiKey := true, op1 := true, op2 := true, op3 := true }
      (some [StepArg.num 3])
      { inputDir := true, rawAudio := true, outputDir := false,
        processedAudio := false, transcript := false, blogPost := false }).exitCode = 1 :=
  (claim_C6 false _ _ rfl rfl rfl).1

/-- Claim C10 (confirmed): an empty steps list (non-`None`, without the
token `'all'`) runs no stage and no external operation, still emits the
manifest of existing artifacts, returns `True`, and the process exits 0 —
an empty subset succeeds trivially rather than being rejected. -/
theorem claim_C10 (force : Bool) (env : Env) (fs : FS)
    (hin : fs.inputDir = true) (hraw : fs.rawAudio = true) :
    run_workflow force env (some []) fs =
      { ok := true, outcomes := [], entered := [], invoked := [],
        manifest := some (workflow_summary fs), fs := fs } ∧
    (workflow_main force env (some []) fs).exitCode = 0 := by
  obtain ⟨i, r, o, p, t, b⟩ := fs
  subst hin
  subst hraw
  exact ⟨rfl, rfl⟩

/-- Witness for C10. -/
theorem claim_C10_witness :
    (workflow_main true { apiKey := false, op1 := false, op2 := false, op3 := false }
      (some [])
      { inputDir := true, rawAudio := true, outputDir := true,
        processedAudio := false, transcript := true, blogPost := false }).exitCode = 0 :=
  (claim_C10 true _ _ rfl rfl).2

/-- Claim C1 is refuted as stated: with stage 2's output (`transcript.txt`)
present, overwrite off, but stage 2's predecessor (`processed.mp3`) absent,
the code does NOT record `Skipped` — `step_2_transcribe` checks the
predecessor before consulting the Completion Checker and fails; the whole
run requesting stage 2 returns failure. -/
theorem claim_C1_counterexample :
    (stageOutput 2
      { inputDir := true, rawAudio := true, outputDir := true,
        processedAudio := false, transcript := true, blogPost := false } = true) ∧
    ((stageStep 2 false { apiKey := true, op1 := true, op2 := true, op3 := true }
      { inputDir := true, rawAudio := true, outputDir := true,
        processedAudio := false, transcript := true, blogPost := false }).outcome =
      StageOutcome.failedPredMissing) ∧
    ((stageStep 2 false { apiKey := true, op1 := true, op2 := true, op3 := true }
      { inputDir := true, rawAudio := true, outputDir := true,
        processedAudio := false, transcript := true, blogPost := false }).outcome ≠
      StageOutcome.skipped) ∧
    ((run_workflow false { apiKey := true, op1 := true, op2 := true, op3 := true }
      (some [StepArg.num 2])
      { inputDir := true, rawAudio := true, outputDir := true,
        processedAudio := false, transcript := true, blogPost := false }).ok = false) := by
  decide

/-- Claim C1 (amended): for a requested stage K in {2, 3}, when K's output
artifact exists, the overwrite flag is false, AND K's predecessor artifact
also exists, the stage is recorded `Skipped` without invoking the external
operation and without touching the filesystem; the predecessor check comes
first in the code, so a missing predecessor makes the stage fail even when
its output already exists. -/
theorem claim_C1_amended (k : Nat) (env : Env) (fs : FS)
    (hk : k = 2 ∨ k = 3) (hpred : stagePred k fs = true)
    (hout : stageOutput k fs = true) :
    stageStep k false env fs =
      { outcome := .skipped, opInvoked := false, fs := fs } := by
  rcases hk with rfl | rfl
  · exact step_2_skip env fs hpred hout
  · exact step_3_skip env fs hpred hout

/-- Witness for the amended C1: stage 2 with both `processed.mp3` and
`transcript.txt` present. -/
theorem claim_C1_witness :
    stageStep 2 false { apiKey := false, op1 := false, op2 := false, op3 := false }
      { inputDir := true, rawAudio := true, outputDir := true,
        processedAudio := true, transcript := true, blogPost := false } =
      { outcome := .skipped, opInvoked := false,
        fs := { inputDir := true, rawAudio := true, outputDir := true,
                processedAudio := true, transcript := true, blogPost := false } } :=
  claim_C1_amended 2 _ _ (Or.inl rfl) rfl rfl

/-- Claim C2 (confirmed): for every stage whose external operation is
invoked, the outcome is `Succeeded` iff the operation exits 0, and then the
stage's output artifact exists afterwards (each stage script writes its
output before exiting 0); a non-zero exit — which is also how a thrown
error or timeout inside a stage script ends — yields `Failed`. -/
theorem claim_C2 (k : Nat) (force : Bool) (env : Env) (fs : FS)
    (hk : k = 1 ∨ k = 2 ∨ k = 3)
    (hinv : (stageStep k force env fs).opInvoked = true) :
    ((stageStep k force env fs).outcome = .succeeded ↔
      (stageCommand k env fs).1 = 0) ∧
    ((stageStep k force env fs).outcome = .succeeded →
      stageOutput k (stageStep k force env fs).fs = true) ∧
    ((stageCommand k env fs).1 ≠ 0 →
      (stageStep k force env fs).outcome = .failedOp) := by
  rcases hk with rfl | rfl | rfl <;>
    obtain ⟨i, r, o, p, t, b⟩ := fs <;>
    obtain ⟨ak, o1, o2, o3⟩ := env <;>
    revert hinv
  · cases force <;> cases r <;> cases p <;> cases o1 <;>
      simp [stageStep, stageCommand, stageOutput, step_1_preprocess_audio,
        preprocess_audio_main, run_command, check_file_exists,
        StageOutcome.toBool]
  · cases force <;> cases p <;> cases t <;> cases ak <;> cases o2 <;>
      simp [stageStep, stageCommand, stageOutput, step_2_transcribe,
        gemini_transcribe_main, run_command, check_file_exists,
        StageOutcome.toBool]
  · cases force <;> cases t <;> cases b <;> cases ak <;> cases o3 <;>
      simp [stageStep, stageCommand, stageOutput, step_3_generate_blog,
        gemini_blog_post_main, run_command, check_file_exists,
        StageOutcome.toBool]

/-- Witness for C2: stage 1 invoked on a fresh folder with a working
environment. -/
theorem claim_C2_witness :
    ((stageStep 1 false { apiKey := true, op1 := true, op2 := true, op3 := true }
      { inputDir := true, rawAudio := true, outputDir := false,
        processedAudio := false, transcript := false, blogPost := false }).outcome =
        .succeeded ↔
      (stageCommand 1 { apiKey := true, op1 := true, op2 := true, op3 := true }
        { inputDir := true, rawAudio := true, outputDir := false,
          processedAudio := false, transcript := false, blogPost := false }).1 = 0) :=
  (claim_C2 1 false { apiKey := true, op1 := true, op2 := true, op3 := true }
    { inputDir := true, rawAudio := true, outputDir := false,
      processedAudio := false, transcript := false, blogPost := false }
    (Or.inl rfl) rfl).1

/-- Filtering the fixed stage list `[1, 2, 3]` by a predicate, written as
the concatenation the orchestrator builds. -/
theorem list_filter_one_two_three (p : Nat → Bool) :
    [1, 2, 3].filter p =
      (if p 1 then [1] else []) ++ (if p 2 then [2] else []) ++
        (if p 3 then [3] else []) := by
  cases h1 : p 1 <;> cases h2 : p 2 <;> cases h3 : p 3 <;>
    simp [List.filter, h1, h2, h3]

/-- Claim C3 (confirmed): for every requested stage subset, if stage k is
recorded as failed then the run returns failure, every stage entered and
every external operation invoked has index at most k (so nothing after k
runs), and whenever the workflow run inside `main` failed the process exit
code is 1. -/
theorem claim_C3 (force : Bool) (env : Env) (steps : Option (List StepArg))
    (fs : FS) :
    (∀ p ∈ (run_workflow force env steps fs).outcomes, p.2.toBool = false →
       (run_workflow force env steps fs).ok = false ∧
       (∀ j ∈ (run_workflow force env steps fs).entered, j ≤ p.1) ∧
       (∀ j ∈ (run_workflow force env steps fs).invoked, j ≤ p.1)) ∧
    (∀ r, (workflow_main force env steps fs).run = some r → r.ok = false →
       (workflow_main force env steps fs).exitCode = 1) := by
  constructor
  · exact run_core_failstop force env ((normalizeSteps steps).contains 1)
      ((normalizeSteps steps).contains 2) ((normalizeSteps steps).contains 3) fs
  · intro r hr hok
    obtain ⟨i, ra, o, p, t, b⟩ := fs
    cases i with
    | false => simp [workflow_main] at hr
    | true =>
    cases ra with
    | false => simp [workflow_main] at hr
    | true =>
    simp [workflow_main] at hr ⊢
    subst hr
    simp [hok]

/-- Witness for C3: stage 1's external operation fails on a fresh folder
with steps `[1, 2]`; the run fails and nothing beyond stage 1 is entered
or invoked. -/
theorem claim_C3_witness :
    ((run_workflow false { apiKey := true, op1 := false, op2 := true, op3 := true }
      (some [StepArg.num 1, StepArg.num 2])
      { inputDir := true, rawAudio := true, outputDir := true,
        processedAudio := false, transcript := false, blogPost := false }).ok =
      false) ∧
    (∀ j ∈ (run_workflow false { apiKey := true, op1 := false, op2 := true, op3 := true }
      (some [StepArg.num 1, StepArg.num 2])
      { inputDir := true, rawAudio := true, outputDir := true,
        processedAudio := false, transcript := false, blogPost := false }).entered,
      j ≤ 1) ∧
    (∀ j ∈ (run_workflow false { apiKey := true, op1 := false, op2 := true, op3 := true }
      (some [StepArg.num 1, StepArg.num 2])
      { inputDir := true, rawAudio := true, outputDir := true,
        processedAudio := false, transcript := false, blogPost := false }).invoked,
      j ≤ 1) :=
  (claim_C3 false { apiKey := true, op1 := false, op2 := true, op3 := true }
    (some [StepArg.num 1, StepArg.num 2])
    { inputDir := true, rawAudio := true, outputDir := true,
      processedAudio := false, transcript := false, blogPost := false }).1
    (1, StageOutcome.failedOp) (by decide) (by decide)

/-- Claim C4 (confirmed): if a run with overwrite off exits 0, an
immediately repeated run on the resulting filesystem with the same steps
and overwrite off also exits 0, enters the same stages with every outcome
`Skipped`, invokes zero external operations, and leaves every file bit
unchanged — whatever the second run's environment would have done. -/
theorem claim_C4 (env env' : Env) (steps : Option (List StepArg)) (fs : FS)
    (h : (workflow_main false env steps fs).exitCode = 0) :
    ((workflow_main false env' steps (workflow_main false env steps fs).fs).exitCode = 0) ∧
    ((workflow_main false env' steps (workflow_main false env steps fs).fs).fs =
      (workflow_main false env steps fs).fs) ∧
    (Option.map RunResult.invoked
      (workflow_main false env' steps (workflow_main false env steps fs).fs).run =
      some []) ∧
    (Option.map RunResult.entered
      (workflow_main false env' steps (workflow_main false env steps fs).fs).run =
      Option.map RunResult.entered (workflow_main false env steps fs).run) ∧
    (Option.map RunResult.outcomes
      (workflow_main false env' steps (workflow_main false env steps fs).fs).run =
      Option.map (fun r => r.entered.map (fun k => (k, StageOutcome.skipped)))
        (workflow_main false env steps fs).run) := by
  obtain ⟨i, r, o, p, t, b⟩ := fs
  cases i with
  | false => exfalso; simp [workflow_main] at h
  | true =>
  cases r with
  | false => exfalso; simp [workflow_main] at h
  | true =>
  have hok : (run_workflow false env steps ⟨true, true, true, p, t, b⟩).ok = true := by
    cases hok1 : (run_workflow false env steps ⟨true, true, true, p, t, b⟩).ok with
    | false => exfalso; simp [workflow_main, hok1] at h
    | true => rfl
  have hm1 : workflow_main false env steps ⟨true, true, o, p, t, b⟩ =
      { exitCode := 0,
        run := some (run_workflow false env steps ⟨true, true, true, p, t, b⟩),
        fs := (run_workflow false env steps ⟨true, true, true, p, t, b⟩).fs } := by
    simp [workflow_main, hok]
  obtain ⟨mI, mR, mO, mP, mT, mB⟩ :=
    run_workflow_mono false env steps ⟨true, true, true, p, t, b⟩
  obtain ⟨p1, p2, p3⟩ :=
    run_workflow_posts_of_ok false env steps ⟨true, true, true, p, t, b⟩ hok
  obtain ⟨s_ok, s_inv, s_fs, s_oc⟩ :=
    run_workflow_all_skip env' steps
      (run_workflow false env steps ⟨true, true, true, p, t, b⟩).fs p1 p2 p3
  have h2in :
      (run_workflow false env steps ⟨true, true, true, p, t, b⟩).fs.inputDir = true := mI
  have h2raw :
      (run_workflow false env steps ⟨true, true, true, p, t, b⟩).fs.rawAudio = true := mR
  have h2out :
      (run_workflow false env steps ⟨true, true, true, p, t, b⟩).fs.outputDir = true :=
    mO rfl
  have hfs2 :
      { (run_workflow false env steps ⟨true, true, true, p, t, b⟩).fs with
          outputDir := true } =
        (run_workflow false env steps ⟨true, true, true, p, t, b⟩).fs := by
    revert h2out
    cases (run_workflow false env steps ⟨true, true, true, p, t, b⟩).fs
    intro h2out
    simp_all
  have hm2 : workflow_main false env' steps
      (run_workflow false env steps ⟨true, true, true, p, t, b⟩).fs =
      { exitCode := 0,
        run := some (run_workflow false env' steps
          (run_workflow false env steps ⟨true, true, true, p, t, b⟩).fs),
        fs := (run_workflow false env' steps
          (run_workflow false env steps ⟨true, true, true, p, t, b⟩).fs).fs } := by
    simp only [workflow_main]
    rw [hfs2, h2in, h2raw]
    simp [s_ok]
  rw [hm1, hm2]
  have e1 := run_workflow_entered_of_ok false env steps ⟨true, true, true, p, t, b⟩ hok
  have e2 := run_workflow_entered_of_ok false env' steps
    (run_workflow false env steps ⟨true, true, true, p, t, b⟩).fs s_ok
  refine ⟨rfl, s_fs, ?_, ?_, ?_⟩
  · simp [s_inv]
  · simp [e1, e2]
  · simp [s_oc, e1]

/-- Witness for C4: a successful full run on a fresh folder, then a rerun
whose environment would fail every operation — nothing is invoked, so it
still exits 0. -/
theorem claim_C4_witness :
    (workflow_main false { apiKey := false, op1 := false, op2 := false, op3 := false }
      none
      (workflow_main false { apiKey := true, op1 := true, op2 := true, op3 := true }
        none
        { inputDir := true, rawAudio := true, outputDir := false,
          processedAudio := false, transcript := false, blogPost := false }).fs).exitCode = 0 :=
  (claim_C4 { apiKey := true, op1 := true, op2 := true, op3 := true }
    { apiKey := false, op1 := false, op2 := false, op3 := false } none
    { inputDir := true, rawAudio := true, outputDir := false,
      processedAudio := false, transcript := false, blogPost := false }
    (by decide)).1

/-- Claim C8 is refuted as stated: with steps `[1, 2]` and stage 1's
operation failing, stage 2's index appears in the list but stage 2 is
never entered — "exactly those whose indices appear in the list" fails on
failing runs because of fail-fast. -/
theorem claim_C8_counterexample :
    (2 ∈ normalizeSteps (some [StepArg.num 1, StepArg.num 2])) ∧
    2 ∉ (run_workflow false { apiKey := false, op1 := false, op2 := false, op3 := false }
      (some [StepArg.num 1, StepArg.num 2])
      { inputDir := true, rawAudio := true, outputDir := true,
        processedAudio := false, transcript := false, blogPost := false }).entered := by
  decide

/-- Claim C8 (amended): for every steps list, the stages executed are a
subset of {1, 2, 3} restricted to the indices in the (normalized) list,
each executed at most once and always in the fixed increasing order
1, 2, 3 regardless of the order or duplication of indices in the list; and
when the run succeeds they are exactly the requested stages.  (When a
stage fails, later requested stages are not executed.) -/
theorem claim_C8_amended (force : Bool) (env : Env)
    (steps : Option (List StepArg)) (fs : FS) :
    (∀ j ∈ (run_workflow force env steps fs).entered,
      j ∈ ([1, 2, 3] : List Nat) ∧ j ∈ normalizeSteps steps) ∧
    ((run_workflow force env steps fs).entered).Pairwise (· < ·) ∧
    ((run_workflow force env steps fs).ok = true →
      (run_workflow force env steps fs).entered =
        [1, 2, 3].filter (fun j => (normalizeSteps steps).contains j)) := by
  refine ⟨?_, ?_, ?_⟩
  · intro j hj
    have h := run_core_entered_requested force env
      ((normalizeSteps steps).contains 1) ((normalizeSteps steps).contains 2)
      ((normalizeSteps steps).contains 3) fs j hj
    rcases h with ⟨rfl, hb⟩ | ⟨rfl, hb⟩ | ⟨rfl, hb⟩ <;>
      exact ⟨by decide, by simpa using hb⟩
  · exact run_core_entered_sorted force env ((normalizeSteps steps).contains 1)
      ((normalizeSteps steps).contains 2) ((normalizeSteps steps).contains 3) fs
  · intro hok
    rw [run_workflow_entered_of_ok force env steps fs hok,
      list_filter_one_two_three]

/-- Witness for the amended C8: steps `[3, 1, 1]` — duplicated and out of
order — execute exactly stages 1 and 3, in that order. -/
theorem claim_C8_witness :
    (run_workflow false { apiKey := true, op1 := true, op2 := true, op3 := true }
      (some [StepArg.num 3, StepArg.num 1, StepArg.num 1])
      { inputDir := true, rawAudio := true, outputDir := true,
        processedAudio := false, transcript := true, blogPost := false }).entered =
      [1, 2, 3].filter (fun j =>
        (normalizeSteps (some [StepArg.num 3, StepArg.num 1, StepArg.num 1])).contains j) :=
  (claim_C8_amended false { apiKey := true, op1 := true, op2 := true, op3 := true }
    (some [StepArg.num 3, StepArg.num 1, StepArg.num 1])
    { inputDir := true, rawAudio := true, outputDir := true,
      processedAudio := false, transcript := true, blogPost := false }).2.2
    (by decide)

/-- Claim C9 (confirmed): every run that reaches terminal success emits a
manifest reporting, for each of the three output artifacts, whether it
exists at that moment (whether or not it was produced this invocation);
and a successful full run `[1, 2, 3]` from an empty output directory
reports exactly three existing artifacts. -/
theorem claim_C9 (force : Bool) (env : Env) (steps : Option (List StepArg))
    (fs : FS) :
    ((run_workflow force env steps fs).ok = true →
      (run_workflow force env steps fs).manifest =
        some ((run_workflow force env steps fs).fs.processedAudio,
              (run_workflow force env steps fs).fs.transcript,
              (run_workflow force env steps fs).fs.blogPost)) ∧
    (fs.processedAudio = false → fs.transcript = false → fs.blogPost = false →
      (run_workflow force env
        (some [StepArg.num 1, StepArg.num 2, StepArg.num 3]) fs).ok = true →
      (run_workflow force env
        (some [StepArg.num 1, StepArg.num 2, StepArg.num 3]) fs).manifest =
        some (true, true, true)) := by
  constructor
  · intro hok
    simpa [workflow_summary] using
      run_workflow_manifest_of_ok force env steps fs hok
  · intro hp ht hb hok
    obtain ⟨p1, p2, p3⟩ := run_workflow_posts_of_ok force env
      (some [StepArg.num 1, StepArg.num 2, StepArg.num 3]) fs hok
    have hm := run_workflow_manifest_of_ok force env
      (some [StepArg.num 1, StepArg.num 2, StepArg.num 3]) fs hok
    rw [hm]
    simp [workflow_summary, p1 (by decide), (p2 (by decide)).2,
      (p3 (by decide)).2]

/-- Witness for C9: full run from an empty output directory with a working
environment reports all three artifacts. -/
theorem claim_C9_witness :
    (run_workflow false { apiKey := true, op1 := true, op2 := true, op3 := true }
      (some [StepArg.num 1, StepArg.num 2, StepArg.num 3])
      { inputDir := true, rawAudio := true, outputDir := true,
        processedAudio := false, transcript := false, blogPost := false }).manifest =
      some (true, true, true) :=
  (claim_C9 false { apiKey := true, op1 := true, op2 := true, op3 := true }
    (some [StepArg.num 1, StepArg.num 2, StepArg.num 3])
    { inputDir := true, rawAudio := true, outputDir := true,
      processedAudio := false, transcript := false, blogPost := false }).2
    rfl rfl rfl (by decide)
